import Mathlib

/-!
Verification of the document-level DXF reader/writer core (`src/drawing.rs`).

The development shallowly embeds the core of `drawing.rs`: the tag-value data
model, the thumbnail sub-codec (`read_thumbnail` / `write_thumbnail`), the
section dispatcher (`read_sections`, `swallow_section`, `read_section_item`),
and the document writer (`save_internal` and the per-section `write_*`
functions).  External collaborators (header/class/table/block/entity/object
readers and writers, the tokenizer, the DXB path) are modelled as parameters;
helper functions that live outside `src/` (`assert_string`, `assert_i32`,
`parse_hex_string`) are modelled from the spec and marked as such.

Streams of code pairs are lists; the one-element push-back cursor is modelled
by returning the unconsumed suffix (push-back = cons).  A Rust panic is
modelled as `Option.none`; fallible code returns `Except DxfError`.
-/

deriving instance DecidableEq for Except

namespace Dxf

/-- Typed value carried by a code pair.  The core only ever inspects string
(codes 0, 2, 310) and 32-bit integer (code 90) payloads; a boolean variant is
kept so that "arbitrary pair" quantifications range over non-string values
too. -/
inductive CodePairValue where
  | Str : String → CodePairValue
  | I32 : Int → CodePairValue
  | Boolean : Bool → CodePairValue
deriving DecidableEq

/-- `CodePair` from the wire protocol: an integer code paired with a typed
value (struct `CodePair` in the source). -/
structure CodePair where
  code : Int
  value : CodePairValue
deriving DecidableEq

/-- True exactly when the value is the string variant. -/
def CodePairValue.isStr : CodePairValue → Bool
  | .Str _ => true
  | _ => false

/-- `CodePair::new_str` / `new_string`: build a string-valued pair. -/
def mkStr (code : Int) (s : String) : CodePair := ⟨code, .Str s⟩

/-- The error taxonomy the core uses (`DxfError` variants relevant to
`drawing.rs`): end of stream, structural pair mismatch (with context string),
illegal code in a micro-context, type-mismatched value assertion, malformed
hex payload. -/
inductive DxfError where
  | UnexpectedEndOfInput
  | UnexpectedCodePair : CodePair → String → DxfError
  | UnexpectedCode : Int → DxfError
  | WrongValueType
  | ParseError
deriving DecidableEq

/-- Modelled from the spec: `CodePairValue::assert_string` (lib.rs, not under
src/) — "type-mismatched value assertions such as expecting a string but
finding a number" are malformed-payload errors; a string value is returned
as-is. -/
def assert_string : CodePairValue → Except DxfError String
  | .Str s => .ok s
  | _ => .error .WrongValueType

/-- Modelled from the spec: `CodePairValue::assert_i32` (lib.rs, not under
src/) — the integer analogue of `assert_string`. -/
def assert_i32 : CodePairValue → Except DxfError Int
  | .I32 n => .ok n
  | _ => .error .WrongValueType

/-- Modelled from the spec: the ordered version enumeration `AcadVersion`
(enums.rs, not under src/).  Only the relative order of the revisions the
core compares against (`R13` for handles, `R2000` for thumbnails) matters. -/
inductive AcadVersion where
  | R12 | R13 | R14 | R2000 | R2004 | R2007
deriving DecidableEq

/-- Rank of a version in the ordered enumeration. -/
def AcadVersion.toNat : AcadVersion → Nat
  | .R12 => 0 | .R13 => 1 | .R14 => 2 | .R2000 => 3 | .R2004 => 4 | .R2007 => 5

/-- `a.atLeast b` is the Rust comparison `a >= b` on `AcadVersion`. -/
def AcadVersion.atLeast (a b : AcadVersion) : Bool := b.toNat ≤ a.toNat

/-- Modelled from the spec: the slice of `Header` (header.rs, not under src/)
the core reads — the version and the handles flag. -/
structure Header where
  version : AcadVersion
  handles_enabled : Bool
deriving DecidableEq

/-- Modelled from the spec: `Header::default()`. -/
def Header.default : Header := ⟨.R12, false⟩

/-- External record type, opaque to the core; modelled as its raw pairs. -/
structure Class where
  raw : List CodePair
deriving DecidableEq

/-- External record type, opaque to the core; modelled as its raw pairs. -/
structure AppId where
  raw : List CodePair
deriving DecidableEq

/-- External record type, opaque to the core; modelled as its raw pairs. -/
structure BlockRecord where
  raw : List CodePair
deriving DecidableEq

/-- External record type, opaque to the core; modelled as its raw pairs. -/
structure DimStyle where
  raw : List CodePair
deriving DecidableEq

/-- External record type, opaque to the core; modelled as its raw pairs. -/
structure Layer where
  raw : List CodePair
deriving DecidableEq

/-- External record type, opaque to the core; modelled as its raw pairs. -/
structure LineType where
  raw : List CodePair
deriving DecidableEq

/-- External record type, opaque to the core; modelled as its raw pairs. -/
structure Style where
  raw : List CodePair
deriving DecidableEq

/-- External record type, opaque to the core; modelled as its raw pairs. -/
structure Ucs where
  raw : List CodePair
deriving DecidableEq

/-- External record type, opaque to the core; modelled as its raw pairs. -/
structure View where
  raw : List CodePair
deriving DecidableEq

/-- External record type, opaque to the core; modelled as its raw pairs. -/
structure ViewPort where
  raw : List CodePair
deriving DecidableEq

/-- External record type, opaque to the core; modelled as its raw pairs. -/
structure Block where
  raw : List CodePair
deriving DecidableEq

/-- External record type, opaque to the core; modelled as its raw pairs. -/
structure Entity where
  raw : List CodePair
deriving DecidableEq

/-- External record type, opaque to the core; modelled as its raw pairs. -/
structure Object where
  raw : List CodePair
deriving DecidableEq

/-- The root aggregate `Drawing` (struct `Drawing` in the source), with the
header, the thirteen ordered collections, and the optional raw thumbnail
byte buffer (bytes as `Nat`, each below 256). -/
structure Drawing where
  header : Header
  classes : List Class
  app_ids : List AppId
  block_records : List BlockRecord
  dim_styles : List DimStyle
  layers : List Layer
  line_types : List LineType
  styles : List Style
  ucs : List Ucs
  views : List View
  view_ports : List ViewPort
  blocks : List Block
  entities : List Entity
  objects : List Object
  thumbnail : Option (List Nat)
deriving DecidableEq

/-- `Drawing::default()`: empty collections, default header, no thumbnail. -/
def Drawing.default : Drawing :=
  ⟨Header.default, [], [], [], [], [], [], [], [], [], [], [], [], [], none⟩

/-! ### Primitive machine operations, modelled with their panic behavior -/

/-- Rust `usize` subtraction `a - b`: out of range (a panic, modelled as
`none`) when `b > a`. -/
def usize_sub (a b : Nat) : Option Nat := if b ≤ a then some (a - b) else none

/-- Rust range slice `l[i..]`: out of range (a panic, modelled as `none`)
when `i > l.len()`. -/
def slice_from (l : List Nat) (i : Nat) : Option (List Nat) :=
  if i ≤ l.length then some (l.drop i) else none

/-- Rust `usize as i32` cast: reduce modulo 2^32 and reinterpret as a signed
32-bit value. -/
def i32_of_usize (n : Nat) : Int :=
  if n % 4294967296 < 2147483648 then (n % 4294967296 : Nat)
  else (n % 4294967296 : Nat) - 4294967296

/-- byteorder's `LittleEndian::write_i32(buf, n)`: writes the four
little-endian bytes of `n` into the first four slots of `buf`.  Panics
(modelled as `none`) when `buf.len() < 4`. -/
def write_i32_le (buf : List Nat) (n : Int) : Option (List Nat) :=
  if buf.length < 4 then none
  else
    let m := (n % 4294967296).toNat
    some ([m % 256, m / 256 % 256, m / 65536 % 256, m / 16777216 % 256] ++ buf.drop 4)

/-! ### Hex encoding and decoding -/

/-- The uppercase hexadecimal digit character for `n < 16`. -/
def upper_hex_digit (n : Nat) : Char :=
  if n < 10 then Char.ofNat (48 + n) else Char.ofNat (55 + n)

/-- Rust `format!` with the `{:X}` specifier on a `u8` (`b < 256`): the
uppercase hexadecimal digits of `b` with NO zero padding — one character when
`b < 16`, two otherwise. -/
def to_hex_upper (b : Nat) : String :=
  if b / 16 = 0 then String.mk [upper_hex_digit (b % 16)]
  else String.mk [upper_hex_digit (b / 16 % 16), upper_hex_digit (b % 16)]

/-- The hex line built for one chunk in `write_thumbnail`: start from the
empty string and `push_str(format!("{:X}", b))` for each byte. -/
def hex_line (chunk : List Nat) : String :=
  chunk.foldl (fun acc b => acc ++ to_hex_upper b) ""

/-- Fuelled worker for `chunks128`; every step consumes at least one list
element, so fuel equal to the list length always suffices. -/
def chunksAux : Nat → List Nat → List (List Nat)
  | 0, _ => []
  | _, [] => []
  | fuel + 1, x :: xs => ((x :: xs).take 128) :: chunksAux fuel ((x :: xs).drop 128)

/-- Rust slice `chunks(128)`: consecutive chunks of 128 elements, the last
one possibly shorter; no chunks for an empty slice. -/
def chunks128 (l : List Nat) : List (List Nat) := chunksAux l.length l

/-- Modelled from the spec: the numeric value of one hexadecimal digit
character, accepting both cases. -/
def hex_val (c : Char) : Option Nat :=
  if 48 ≤ c.toNat ∧ c.toNat ≤ 57 then some (c.toNat - 48)
  else if 65 ≤ c.toNat ∧ c.toNat ≤ 70 then some (c.toNat - 55)
  else if 97 ≤ c.toNat ∧ c.toNat ≤ 102 then some (c.toNat - 87)
  else none

/-- Modelled from the spec: `parse_hex_string` (helper_functions.rs, not
under src/) — decodes a string of an even number of hexadecimal digits into
bytes, two digits per byte; odd length or a non-hex character is a fatal
malformed-payload error. -/
def parse_hex_chars : List Char → Except DxfError (List Nat)
  | [] => .ok []
  | [_] => .error .ParseError
  | c1 :: c2 :: rest =>
    match hex_val c1, hex_val c2 with
    | some hi, some lo =>
      match parse_hex_chars rest with
      | .ok bs => .ok ((16 * hi + lo) :: bs)
      | .error e => .error e
    | _, _ => .error .ParseError

/-- Modelled from the spec: `parse_hex_string` on a `String`, appending the
decoded bytes to a buffer (the Rust function appends into `&mut Vec<u8>`). -/
def parse_hex_string (s : String) : Except DxfError (List Nat) :=
  parse_hex_chars s.data

/-! ### Thumbnail sub-codec (`read_thumbnail` / `write_thumbnail`) -/

/-- The synthesized 14-byte bitmap header seeded by `read_thumbnail`:
magic `BM` (66, 77), four placeholder length bytes, two 2-byte reserved
fields, and the fixed little-endian bit offset 0x00000436 (54, 4, 0, 0). -/
def bmp_header : List Nat :=
  [66, 77, 0, 0, 0, 0, 0, 0, 0, 0, 54, 4, 0, 0]

/-- The tail of `read_thumbnail` after its loop (source lines 413-423):
compute `data.len() - header_length` (the buffer always still starts with the
14-byte seed, so the `usize` subtraction cannot underflow), then call
byteorder's `LittleEndian::write_i32` on the freshly created EMPTY vector
`length_bytes` — which panics, because the destination slice is shorter than
four bytes — and finally copy `length_bytes[0..4]` into `data[2..6]`. -/
def read_thumbnail_finish (data : List Nat) (remaining : List CodePair) :
    Option (Except DxfError (List Nat × List CodePair)) :=
  let length := data.length - bmp_header.length
  match write_i32_le [] (i32_of_usize length) with
  | none => none
  | some lb =>
    match lb.get? 0, lb.get? 1, lb.get? 2, lb.get? 3 with
    | some b0, some b1, some b2, some b3 =>
      some (.ok ((((data.set 2 b0).set 3 b1).set 4 b2).set 5 b3, remaining))
    | _, _, _, _ => none

/-- The hex-reading loop of `read_thumbnail` (source lines 399-411): a code-0
pair is pushed back and the loop stops; a code-310 pair has its string payload
hex-decoded and appended; any other code is a fatal `UnexpectedCode`; end of
stream stops the loop. -/
def read_thumbnail_loop : List CodePair → List Nat →
    Option (Except DxfError (List Nat × List CodePair))
  | [], data => read_thumbnail_finish data []
  | p :: rest, data =>
    if p.code = 0 then read_thumbnail_finish data (p :: rest)
    else if p.code = 310 then
      match assert_string p.value with
      | .error e => .some (.error e)
      | .ok s =>
        match parse_hex_string s with
        | .error e => .some (.error e)
        | .ok bytes => read_thumbnail_loop rest (data ++ bytes)
    else .some (.error (.UnexpectedCode p.code))

/-- `Drawing::read_thumbnail` (source lines 378-424), given the pairs of the
THUMBNAILIMAGE section body.  It first demands a code-90 length pair (whose
value is read but not otherwise used), seeds the buffer with `bmp_header`,
runs the hex loop, and finishes by patching the length field.  The result is
the thumbnail buffer together with the unconsumed stream suffix (the Rust
method instead stores the buffer into `self.thumbnail`); `none` is a panic. -/
def read_thumbnail (s : List CodePair) :
    Option (Except DxfError (List Nat × List CodePair)) :=
  match s with
  | [] => some (.error .UnexpectedEndOfInput)
  | lengthPair :: rest =>
    match (if lengthPair.code = 90 then assert_i32 lengthPair.value
           else .error (.UnexpectedCode lengthPair.code)) with
    | .error e => some (.error e)
    | .ok _ => read_thumbnail_loop rest bmp_header

/-! ### Document writer -/

/-- The external per-payload writers `save_internal` delegates to, with the
signatures the source hands them: the protocol prelude, the header writer,
and the per-class / tables-body / per-block / per-entity / per-object
writers (version and, where relevant, the write-handles flag threaded
through).  Each produces the code pairs it would stream out. -/
structure Writers where
  preludePairs : List CodePair
  headerPairs : Header → List CodePair
  classPairs : AcadVersion → Class → List CodePair
  tablesPairs : Drawing → Bool → List CodePair
  blockPairs : AcadVersion → Bool → Block → List CodePair
  entityPairs : AcadVersion → Bool → Entity → List CodePair
  objectPairs : AcadVersion → Object → List CodePair

/-- `Drawing::write_classes` (source lines 203-218): nothing at all when the
class collection is empty, otherwise the CLASSES section framing around the
per-class payloads. -/
def write_classes (d : Drawing) (W : Writers) : List CodePair :=
  if d.classes.length = 0 then []
  else
    [mkStr 0 "SECTION", mkStr 2 "CLASSES"] ++
      (d.classes.flatMap fun c => W.classPairs d.header.version c) ++
      [mkStr 0 "ENDSEC"]

/-- `Drawing::write_tables` (source lines 219-227): always emits the TABLES
framing around the external tables body. -/
def write_tables (d : Drawing) (W : Writers) (write_handles : Bool) : List CodePair :=
  [mkStr 0 "SECTION", mkStr 2 "TABLES"] ++
    W.tablesPairs d write_handles ++ [mkStr 0 "ENDSEC"]

/-- `Drawing::write_blocks` (source lines 228-243): nothing when the block
collection is empty, otherwise the BLOCKS framing around per-block
payloads. -/
def write_blocks (d : Drawing) (W : Writers) (write_handles : Bool) : List CodePair :=
  if d.blocks.length = 0 then []
  else
    [mkStr 0 "SECTION", mkStr 2 "BLOCKS"] ++
      (d.blocks.flatMap fun b => W.blockPairs d.header.version write_handles b) ++
      [mkStr 0 "ENDSEC"]

/-- `Drawing::write_entities` (source lines 244-255): always emits the
ENTITIES framing around per-entity payloads. -/
def write_entities (d : Drawing) (W : Writers) (write_handles : Bool) : List CodePair :=
  [mkStr 0 "SECTION", mkStr 2 "ENTITIES"] ++
    (d.entities.flatMap fun e => W.entityPairs d.header.version write_handles e) ++
    [mkStr 0 "ENDSEC"]

/-- `Drawing::write_objects` (source lines 256-267): always emits the
OBJECTS framing around per-object payloads. -/
def write_objects (d : Drawing) (W : Writers) : List CodePair :=
  [mkStr 0 "SECTION", mkStr 2 "OBJECTS"] ++
    (d.objects.flatMap fun o => W.objectPairs d.header.version o) ++
    [mkStr 0 "ENDSEC"]

/-- `Drawing::write_thumbnail` (source lines 268-291): nothing below `R2000`
or without a thumbnail; otherwise the THUMBNAILIMAGE framing, a code-90 pair
carrying `data.len() - 14` (unchecked `usize` subtraction, cast to `i32`),
and one code-310 pair per 128-byte chunk of `data[14..]`, each byte rendered
with `format!` and the `{:X}` specifier.  `none` is the panic raised by the
subtraction or the slice when `data.len() < 14`. -/
def write_thumbnail (d : Drawing) : Option (List CodePair) :=
  if d.header.version.atLeast .R2000 then
    match d.thumbnail with
    | some data =>
      match usize_sub data.length 14 with
      | none => none
      | some length =>
        match slice_from data 14 with
        | none => none
        | some payload =>
          some ([mkStr 0 "SECTION", mkStr 2 "THUMBNAILIMAGE"] ++
            (⟨90, .I32 (i32_of_usize length)⟩ ::
              (chunks128 payload).map fun chunk => ⟨310, .Str (hex_line chunk)⟩) ++
            [mkStr 0 "ENDSEC"])
    | none => some []
  else some []

/-- `Drawing::save_internal` (source lines 152-166): prelude, header, then
the seven section writers in their fixed order, then the `0/EOF` terminator.
The write-handles flag is `version >= R13 || handles_enabled`.  `none`
propagates the thumbnail writer's panic (in the source the panic aborts the
whole save, so no complete output is produced). -/
def save_internal (d : Drawing) (W : Writers) : Option (List CodePair) :=
  let write_handles := d.header.version.atLeast .R13 || d.header.handles_enabled
  match write_thumbnail d with
  | none => none
  | some thumb =>
    some (W.preludePairs ++ W.headerPairs d.header ++
      write_classes d W ++
      write_tables d W write_handles ++
      write_blocks d W write_handles ++
      write_entities d W write_handles ++
      write_objects d W ++
      thumb ++ [mkStr 0 "EOF"])

/-! ### Section dispatcher and load -/

/-- The external per-section readers the dispatcher delegates to, with the
shapes the source hands them: each consumes pairs from the cursor and
returns the updated document (or, for the header, the header) together with
the unconsumed suffix.  `readTable` and `readBlock` are the per-item
callbacks passed to `read_section_item` (`read_specific_table` and
`Block::read_block`). -/
structure Handlers where
  readHeader : List CodePair → Except DxfError (Header × List CodePair)
  readClasses : Drawing → List CodePair → Except DxfError (Drawing × List CodePair)
  readTable : Drawing → List CodePair → Except DxfError (Drawing × List CodePair)
  readBlock : Drawing → List CodePair → Except DxfError (Drawing × List CodePair)
  readEntities : Drawing → List CodePair → Except DxfError (Drawing × List CodePair)
  readObjects : Drawing → List CodePair → Except DxfError (Drawing × List CodePair)

/-- `Drawing::swallow_section` (source lines 340-357): discard pairs until a
`0/ENDSEC` (pushed back) or end of stream; a code-0 pair has its value
asserted to be a string first, so a non-string code-0 value is an error. -/
def swallow_section : List CodePair → Except DxfError (List CodePair)
  | [] => .ok []
  | p :: rest =>
    if p.code = 0 then
      match assert_string p.value with
      | .error e => .error e
      | .ok s => if s = "ENDSEC" then .ok (p :: rest) else swallow_section rest
    else swallow_section rest

/-- `Drawing::read_section_item` (source lines 425-458): the generic
repeated-item loop.  A non-0 code is a fatal `UnexpectedCodePair` (with an
empty context string); `0/ENDSEC` is pushed back and the loop stops; a code-0
pair matching `item_type` invokes the callback and loops on what it leaves;
any other code-0 string is a fatal `UnexpectedCodePair`; end of stream is a
fatal `UnexpectedEndOfInput`.  The callback may leave an arbitrary suffix, so
the loop is fuelled; `none` means the fuel ran out. -/
def read_section_item (fuel : Nat) (d : Drawing) (s : List CodePair)
    (item_type : String)
    (cb : Drawing → List CodePair → Except DxfError (Drawing × List CodePair)) :
    Option (Except DxfError (Drawing × List CodePair)) :=
  match fuel with
  | 0 => none
  | fuel + 1 =>
    match s with
    | [] => some (.error .UnexpectedEndOfInput)
    | pair :: rest =>
      if pair.code = 0 then
        match assert_string pair.value with
        | .error e => some (.error e)
        | .ok str =>
          if str = "ENDSEC" then some (.ok (d, pair :: rest))
          else if str = item_type then
            match cb d rest with
            | .error e => some (.error e)
            | .ok (d2, rest2) => read_section_item fuel d2 rest2 item_type cb
          else some (.error (.UnexpectedCodePair pair ""))
      else some (.error (.UnexpectedCodePair pair ""))

/-- The section-name dispatch inside `read_sections` (source lines 307-314):
route the section body to the matching handler; `THUMBNAILIMAGE` goes to
`read_thumbnail` (whose buffer is stored into the drawing); any other name is
swallowed.  `none` propagates a panic or exhausted fuel. -/
def handle_section (H : Handlers) (fuel : Nat) (name : String) (d : Drawing)
    (s : List CodePair) : Option (Except DxfError (Drawing × List CodePair)) :=
  if name = "HEADER" then
    some (match H.readHeader s with
      | .error e => .error e
      | .ok (h, rest) => .ok ({ d with header := h }, rest))
  else if name = "CLASSES" then some (H.readClasses d s)
  else if name = "TABLES" then read_section_item fuel d s "TABLE" H.readTable
  else if name = "BLOCKS" then read_section_item fuel d s "BLOCK" H.readBlock
  else if name = "ENTITIES" then some (H.readEntities d s)
  else if name = "OBJECTS" then some (H.readObjects d s)
  else if name = "THUMBNAILIMAGE" then
    match read_thumbnail s with
    | none => none
    | some (.error e) => some (.error e)
    | some (.ok (data, rest)) => some (.ok ({ d with thumbnail := some data }, rest))
  else
    match swallow_section s with
    | .error e => .some (.error e)
    | .ok rest => some (.ok (d, rest))

/-- `Drawing::read_sections` (source lines 292-339): the top-level loop.  A
`0/EOF` is pushed back and the loop stops successfully; a `0/SECTION` must be
followed by `2/<name>` (else `UnexpectedCodePair` / `UnexpectedEndOfInput`),
its handler runs, and the next pair must be `0/ENDSEC` (else fatal); any
other code-0 string is `UnexpectedCodePair` "expected 0/SECTION"; a non-0
code at the top level is `UnexpectedCodePair` "expected 0/SECTION or 0/EOF";
end of stream stops the loop successfully.  One unit of fuel is spent per
section; `none` means exhausted fuel or a propagated panic. -/
def read_sections (H : Handlers) : Nat → Drawing → List CodePair →
    Option (Except DxfError (Drawing × List CodePair))
  | 0, _, _ => none
  | fuel + 1, d, s =>
    match s with
    | [] => some (.ok (d, []))
    | pair :: rest =>
      if pair.code = 0 then
        match assert_string pair.value with
        | .error e => some (.error e)
        | .ok str =>
          if str = "EOF" then some (.ok (d, pair :: rest))
          else if str = "SECTION" then
            match rest with
            | [] => some (.error .UnexpectedEndOfInput)
            | p2 :: rest2 =>
              if p2.code = 2 then
                match p2.value with
                | .Str name =>
                  match handle_section H (fuel + 1) name d rest2 with
                  | none => none
                  | some (.error e) => some (.error e)
                  | some (.ok (d2, rest3)) =>
                    match rest3 with
                    | [] => some (.error .UnexpectedEndOfInput)
                    | q :: rest4 =>
                      if q.code = 0 ∧ q.value = .Str "ENDSEC" then
                        read_sections H fuel d2 rest4
                      else some (.error (.UnexpectedCodePair q "expected 0/ENDSEC"))
                | .I32 _ => some (.error (.UnexpectedCodePair p2 "expected 2/<section-name>"))
                | .Boolean _ => some (.error (.UnexpectedCodePair p2 "expected 2/<section-name>"))
              else some (.error (.UnexpectedCodePair p2 "expected 2/<section-name>"))
          else some (.error (.UnexpectedCodePair pair "expected 0/SECTION"))
      else some (.error (.UnexpectedCodePair pair "expected 0/SECTION or 0/EOF"))

/-- The trailing check in `load` after `read_sections` returns (source lines
122-127): end of stream or a `0/EOF` pair is success; any other pair is a
fatal `UnexpectedCodePair` "expected 0/EOF". -/
def check_trailing (d : Drawing) : List CodePair → Except DxfError Drawing
  | [] => .ok d
  | p :: _ =>
    if p.code = 0 ∧ p.value = .Str "EOF" then .ok d
    else .error (.UnexpectedCodePair p "expected 0/EOF")

/-- The tag-value branch of `Drawing::load`: run `read_sections` on a default
drawing, then apply the trailing `0/EOF` check to whatever the section loop
left unconsumed. -/
def load_body (H : Handlers) (fuel : Nat) (s : List CodePair) :
    Option (Except DxfError Drawing) :=
  match read_sections H fuel Drawing.default s with
  | none => none
  | some (.error e) => some (.error e)
  | some (.ok (d, rest)) => some (check_trailing d rest)

/-- `Drawing::load` (source lines 104-130).  The byte source is modelled as
its list of lines; `read_line` on an empty source is `UnexpectedEndOfInput`.
The first line selects the path: the exact legacy signature hands the rest of
the stream to the external DXB reader (`dxbLoad`) and returns its result
unchanged; otherwise the consumed line is handed back to the external
tokenizer (`tokenize`, `CodePairIter::new(reader, first_line)`) as the first
logical line and the tag-value path runs. -/
def load (H : Handlers) (dxbLoad : List String → Except DxfError Drawing)
    (tokenize : String → List String → List CodePair) (fuel : Nat)
    (src : List String) : Option (Except DxfError Drawing) :=
  match src with
  | [] => some (.error .UnexpectedEndOfInput)
  | firstLine :: rest =>
    if firstLine = "AutoCAD DXB 1.0" then some (dxbLoad rest)
    else load_body H fuel (tokenize firstLine rest)

/-! ### Observation helpers used by the theorems -/

/-- The section names announced in an output stream: every `2/<name>` pair
that immediately follows a `0/SECTION` pair. -/
def sectionNames : List CodePair → List String
  | [] => []
  | [_] => []
  | p :: q :: rest2 =>
    if p.code = 0 ∧ p.value = .Str "SECTION" then
      match q with
      | ⟨2, .Str name⟩ => name :: sectionNames rest2
      | _ => sectionNames (q :: rest2)
    else sectionNames (q :: rest2)
termination_by l => l.length
decreasing_by all_goals simp_arith

/-- A pair list free of `0/SECTION` markers — what the spec requires of every
external payload writer ("must itself avoid emitting section-level
framing"). -/
def NoSectionMarker (l : List CodePair) : Prop :=
  ∀ p ∈ l, ¬(p.code = 0 ∧ p.value = CodePairValue.Str "SECTION")

/-- The length, in characters, of every code-310 string value in a stream,
in order. -/
def code310lengths (l : List CodePair) : List Nat :=
  l.filterMap fun p =>
    if p.code = 310 then
      match p.value with
      | .Str s => some s.length
      | _ => none
    else none

/-- The thumbnail buffer is absent or long enough for the writer's 14-byte
strip (decidable, used as the no-panic hypothesis). -/
def thumb_len_ok (d : Drawing) : Bool :=
  match d.thumbnail with
  | none => true
  | some data => decide (14 ≤ data.length)

/-! ## Theorems -/

/-- The patch-up tail of `read_thumbnail` always panics: the destination
vector handed to `LittleEndian::write_i32` is empty, shorter than the four
bytes the function requires. -/
theorem read_thumbnail_finish_eq_none (data : List Nat) (rem : List CodePair) :
    read_thumbnail_finish data rem = none := by
  simp [read_thumbnail_finish, write_i32_le]

/-- The hex loop of `read_thumbnail` either propagates a decode error or
reaches the panicking patch-up tail; it never produces a normal result. -/
theorem read_thumbnail_loop_no_ok (s : List CodePair) (data : List Nat) :
    read_thumbnail_loop s data = none ∨
      ∃ e, read_thumbnail_loop s data = some (.error e) := by
  induction s generalizing data with
  | nil => exact Or.inl (by simp [read_thumbnail_loop, read_thumbnail_finish_eq_none])
  | cons p rest ih =>
    simp only [read_thumbnail_loop]
    by_cases h0 : p.code = 0
    · exact Or.inl (by simp [h0, read_thumbnail_finish_eq_none])
    · by_cases h310 : p.code = 310
      · simp only [h0, h310, if_false, if_true]
        cases hs : assert_string p.value with
        | error e => exact Or.inr ⟨e, rfl⟩
        | ok str =>
          cases hp : parse_hex_string str with
          | error e => exact Or.inr ⟨e, by simp [hp]⟩
          | ok bytes => simpa [hp] using ih (data ++ bytes)
      · exact Or.inr ⟨.UnexpectedCode p.code, by simp [h0, h310]⟩

/-- Claim C1: the source's own intent (spec §4.4) is that `read_thumbnail`
returns normally on a well-formed THUMBNAILIMAGE body with the synthesized
header and the patched length field; in fact it can never return normally.
After the loop it calls `LittleEndian::write_i32` on the freshly created
empty `length_bytes` vector, which panics because the destination is shorter
than four bytes — so on every input stream the decoder either panics
(`none`) or propagates an error, and in particular never produces the
claimed buffer. -/
theorem read_thumbnail_never_ok (s : List CodePair) :
    read_thumbnail s = none ∨ ∃ e, read_thumbnail s = some (.error e) := by
  cases s with
  | nil => exact Or.inr ⟨.UnexpectedEndOfInput, by simp [read_thumbnail]⟩
  | cons p rest =>
    simp only [read_thumbnail]
    by_cases h90 : p.code = 90
    · simp only [h90, if_true]
      cases hs : assert_i32 p.value with
      | error e => exact Or.inr ⟨e, rfl⟩
      | ok n => simpa using read_thumbnail_loop_no_ok rest bmp_header
    · exact Or.inr ⟨.UnexpectedCode p.code, by simp [h90]⟩

/-- Concrete run of the bug behind C1: a minimal well-formed section body
(one code-90 pair, no hex pairs, end of stream) makes `read_thumbnail`
panic (`none`). -/
theorem read_thumbnail_panics_on_minimal_input :
    read_thumbnail [⟨90, .I32 0⟩] = none := by decide

/-- Claim C2: evaluating the writer at a buffer whose payload byte is 0x05.
The code-310 value is the single character "5": `format!` with `{:X}` does
not zero-pad, so the output is NOT two uppercase hex characters per byte as
the claim (and the spec's wire shape and round-trip property) require. -/
theorem write_thumbnail_unpadded_hex :
    write_thumbnail { Drawing.default with
        header := ⟨.R2000, false⟩,
        thumbnail := some [66, 77, 1, 0, 0, 0, 0, 0, 0, 0, 54, 4, 0, 0, 5] } =
      some [mkStr 0 "SECTION", mkStr 2 "THUMBNAILIMAGE", ⟨90, .I32 1⟩,
        ⟨310, .Str "5"⟩, mkStr 0 "ENDSEC"] := by decide

/-- Claim C3: decode(encode(B)) for the valid synthesized-header buffer
B = header(length field 1) ++ [0x10].  Encoding succeeds and produces
exactly the framing, 90/1, and 310/"10" pairs; but decoding the encoded
section body (everything after the two framing pairs, as the dispatcher
presents it) panics in the length patch-up, so the round-trip does not
return B. -/
theorem thumbnail_roundtrip_broken :
    write_thumbnail { Drawing.default with
        header := ⟨.R2000, false⟩,
        thumbnail := some [66, 77, 1, 0, 0, 0, 0, 0, 0, 0, 54, 4, 0, 0, 16] } =
      some [mkStr 0 "SECTION", mkStr 2 "THUMBNAILIMAGE", ⟨90, .I32 1⟩,
        ⟨310, .Str "10"⟩, mkStr 0 "ENDSEC"] ∧
    read_thumbnail [⟨90, .I32 1⟩, ⟨310, .Str "10"⟩, mkStr 0 "ENDSEC"] = none := by
  constructor
  · decide
  · decide

set_option maxRecDepth 8192 in
/-- Claim C7: version gating behaves as claimed (below R2000 nothing is
emitted), but the chunk hex-character counts do not: a 142-byte payload of
0x05 bytes yields two code-310 lines of 128 and 14 characters — one
character per byte, not the 256 and 28 characters the claim requires. -/
theorem write_thumbnail_gating_and_chunking :
    write_thumbnail { Drawing.default with
        header := ⟨.R14, false⟩,
        thumbnail := some (bmp_header ++ List.replicate 142 5) } = some [] ∧
    (write_thumbnail { Drawing.default with
        header := ⟨.R2000, false⟩,
        thumbnail := some (bmp_header ++ List.replicate 142 5) }).map code310lengths =
      some [128, 14] := by
  constructor
  · decide
  · decide

/-- Claim C10: at or above the R2000 threshold with a present thumbnail,
the writer is total exactly when the buffer is at least 14 bytes long: the
unchecked `usize` subtraction `data.len() - 14` and the slice `data[14..]`
panic for shorter buffers and are safe otherwise. -/
theorem write_thumbnail_totality (d : Drawing) (data : List Nat)
    (hv : d.header.version.atLeast .R2000 = true) (ht : d.thumbnail = some data) :
    write_thumbnail d = none ↔ data.length < 14 := by
  rcases Nat.lt_or_ge data.length 14 with h | h
  · have h14 : ¬ 14 ≤ data.length := by omega
    simp [write_thumbnail, hv, ht, usize_sub, h14, h]
  · have h14 : 14 ≤ data.length := h
    have hlt : ¬ data.length < 14 := by omega
    simp [write_thumbnail, hv, ht, usize_sub, slice_from, h14, hlt,
      Nat.le_trans (by norm_num : 14 ≤ 14) h]

/-- Witness for C10 at a concrete 3-byte buffer: the hypotheses hold and the
writer panics. -/
theorem write_thumbnail_totality_witness :
    ({ Drawing.default with
        header := ⟨.R2000, false⟩,
        thumbnail := some [1, 2, 3] } : Drawing).header.version.atLeast .R2000 = true ∧
    write_thumbnail { Drawing.default with
        header := ⟨.R2000, false⟩,
        thumbnail := some [1, 2, 3] } = none :=
  ⟨by decide,
    (write_thumbnail_totality
      { Drawing.default with
        header := ⟨.R2000, false⟩,
        thumbnail := some [1, 2, 3] }
      [1, 2, 3] (by decide) rfl).mpr (by decide)⟩

/-- Claim C5: the contract of the generic repeated-item reader, for every
expected tag and callback: end of stream is `UnexpectedEndOfInput`; a pair
with a non-zero code is a fatal `UnexpectedCodePair`; `0/ENDSEC` is pushed
back and the loop stops successfully; a code-0 string that is neither
`ENDSEC` nor the expected tag is a fatal `UnexpectedCodePair`; a code-0
string equal to the expected tag invokes the callback and the loop continues
on whatever the callback leaves. -/
theorem read_section_item_contract (d : Drawing) (tag : String)
    (cb : Drawing → List CodePair → Except DxfError (Drawing × List CodePair))
    (fuel : Nat) :
    read_section_item (fuel + 1) d [] tag cb = some (.error .UnexpectedEndOfInput) ∧
    (∀ p rest, ¬ p.code = 0 → read_section_item (fuel + 1) d (p :: rest) tag cb =
      some (.error (.UnexpectedCodePair p ""))) ∧
    (∀ rest, read_section_item (fuel + 1) d (mkStr 0 "ENDSEC" :: rest) tag cb =
      some (.ok (d, mkStr 0 "ENDSEC" :: rest))) ∧
    (∀ s rest, s ≠ "ENDSEC" → s ≠ tag →
      read_section_item (fuel + 1) d (mkStr 0 s :: rest) tag cb =
        some (.error (.UnexpectedCodePair (mkStr 0 s) ""))) ∧
    (∀ rest, tag ≠ "ENDSEC" →
      read_section_item (fuel + 1) d (mkStr 0 tag :: rest) tag cb =
        match cb d rest with
        | .error e => some (.error e)
        | .ok (d2, rest2) => read_section_item fuel d2 rest2 tag cb) := by
  refine ⟨?_, ?_, ?_, ?_, ?_⟩
  · simp [read_section_item]
  · intro p rest hp
    simp [read_section_item, hp]
  · intro rest
    simp [read_section_item, assert_string, mkStr]
  · intro s rest hs1 hs2
    simp [read_section_item, assert_string, mkStr, hs1, hs2]
  · intro rest htag
    simp only [read_section_item, assert_string, mkStr, if_true]
    simp [htag]

/-- Witness for C5 with the concrete tag `TABLE` and a callback that consumes
nothing: a non-zero code is rejected, a stray code-0 string is rejected, and
a `TABLE` item followed by `ENDSEC` invokes the callback and then stops at
the pushed-back `ENDSEC`. -/
theorem read_section_item_contract_witness :
    read_section_item 1 Drawing.default [⟨1, .Str "X"⟩] "TABLE"
        (fun d s => .ok (d, s)) =
      some (.error (.UnexpectedCodePair ⟨1, .Str "X"⟩ "")) ∧
    read_section_item 1 Drawing.default [mkStr 0 "LINE"] "TABLE"
        (fun d s => .ok (d, s)) =
      some (.error (.UnexpectedCodePair (mkStr 0 "LINE") "")) ∧
    read_section_item 2 Drawing.default [mkStr 0 "TABLE", mkStr 0 "ENDSEC"] "TABLE"
        (fun d s => .ok (d, s)) =
      some (.ok (Drawing.default, [mkStr 0 "ENDSEC"])) := by
  refine ⟨?_, ?_, ?_⟩
  · exact (read_section_item_contract Drawing.default "TABLE" _ 0).2.1
      ⟨1, .Str "X"⟩ [] (by decide)
  · exact (read_section_item_contract Drawing.default "TABLE" _ 0).2.2.2.1
      "LINE" [] (by decide) (by decide)
  · have h := (read_section_item_contract Drawing.default "TABLE"
      (fun d s => .ok (d, s)) 1).2.2.2.2 [mkStr 0 "ENDSEC"] (by decide)
    rw [h]
    exact (read_section_item_contract Drawing.default "TABLE"
      (fun d s => .ok (d, s)) 0).2.2.1 []

/-- Claim C8: during the top-level loop a `0/EOF` pair is pushed back and the
loop stops successfully, and plain end of stream also stops the loop
successfully; the trailing check after the loop accepts end of stream and a
`0/EOF` pair, rejects any other pair with `UnexpectedCodePair`
"expected 0/EOF", and `load_body` is exactly the loop followed by the
trailing check on what it left unconsumed. -/
theorem load_eof_handling (H : Handlers) (fuel : Nat) :
    (∀ d rest, read_sections H (fuel + 1) d (mkStr 0 "EOF" :: rest) =
      some (.ok (d, mkStr 0 "EOF" :: rest))) ∧
    (∀ d, read_sections H (fuel + 1) d [] = some (.ok (d, []))) ∧
    (∀ d, check_trailing d [] = .ok d) ∧
    (∀ d rest, check_trailing d (mkStr 0 "EOF" :: rest) = .ok d) ∧
    (∀ d p rest, ¬(p.code = 0 ∧ p.value = CodePairValue.Str "EOF") →
      check_trailing d (p :: rest) = .error (.UnexpectedCodePair p "expected 0/EOF")) ∧
    (∀ s d rest, read_sections H fuel Drawing.default s = some (.ok (d, rest)) →
      load_body H fuel s = some (check_trailing d rest)) := by
  refine ⟨?_, ?_, ?_, ?_, ?_, ?_⟩
  · intro d rest
    simp [read_sections, assert_string, mkStr]
  · intro d
    simp [read_sections]
  · intro d
    simp [check_trailing]
  · intro d rest
    simp [check_trailing, mkStr]
  · intro d p rest hp
    simp [check_trailing, hp]
  · intro s d rest h
    simp [load_body, h]

/-- Witness for C8: with trivial concrete handlers, a stream holding only
`0/EOF` stops the loop with the pair pushed back, the empty stream is a soft
success, a stray trailing pair is rejected, and `load_body` on the lone-EOF
stream returns the default drawing. -/
theorem load_eof_handling_witness :
    read_sections ⟨fun s => .ok (Header.default, s), fun d s => .ok (d, s),
        fun d s => .ok (d, s), fun d s => .ok (d, s), fun d s => .ok (d, s),
        fun d s => .ok (d, s)⟩ 1 Drawing.default [mkStr 0 "EOF"] =
      some (.ok (Drawing.default, [mkStr 0 "EOF"])) ∧
    check_trailing Drawing.default [⟨0, .I32 7⟩] =
      .error (.UnexpectedCodePair ⟨0, .I32 7⟩ "expected 0/EOF") ∧
    load_body ⟨fun s => .ok (Header.default, s), fun d s => .ok (d, s),
        fun d s => .ok (d, s), fun d s => .ok (d, s), fun d s => .ok (d, s),
        fun d s => .ok (d, s)⟩ 1 [mkStr 0 "EOF"] =
      some (.ok Drawing.default) := by
  refine ⟨?_, ?_, ?_⟩
  · exact (load_eof_handling _ 0).1 Drawing.default []
  · exact (load_eof_handling ⟨fun s => .ok (Header.default, s), fun d s => .ok (d, s),
        fun d s => .ok (d, s), fun d s => .ok (d, s), fun d s => .ok (d, s),
        fun d s => .ok (d, s)⟩ 0).2.2.2.2.1 Drawing.default ⟨0, .I32 7⟩ [] (by decide)
  · have h := (load_eof_handling ⟨fun s => .ok (Header.default, s), fun d s => .ok (d, s),
        fun d s => .ok (d, s), fun d s => .ok (d, s), fun d s => .ok (d, s),
        fun d s => .ok (d, s)⟩ 1).2.2.2.2.2 [mkStr 0 "EOF"] Drawing.default
        [mkStr 0 "EOF"] ((load_eof_handling _ 0).1 Drawing.default [])
    rw [h]
    rfl

/-- Claim C9: `load` reads exactly one line; an empty source is a fatal
`UnexpectedEndOfInput`; the exact legacy signature line hands the rest of the
stream to the DXB decoder and returns its result unchanged; any other first
line is handed to the tokenizer as the first logical line and the tag-value
path runs on the resulting pairs. -/
theorem load_format_sniffer (H : Handlers)
    (dxbLoad : List String → Except DxfError Drawing)
    (tokenize : String → List String → List CodePair) (fuel : Nat) :
    load H dxbLoad tokenize fuel [] = some (.error .UnexpectedEndOfInput) ∧
    (∀ rest, load H dxbLoad tokenize fuel ("AutoCAD DXB 1.0" :: rest) =
      some (dxbLoad rest)) ∧
    (∀ first rest, first ≠ "AutoCAD DXB 1.0" →
      load H dxbLoad tokenize fuel (first :: rest) =
        load_body H fuel (tokenize first rest)) := by
  refine ⟨?_, ?_, ?_⟩
  · simp [load]
  · intro rest
    simp [load]
  · intro first rest hf
    simp [load, hf]

/-- Witness for C9: a source whose first line is "0" (not the DXB signature)
goes down the tag-value path with that line handed to the tokenizer. -/
theorem load_format_sniffer_witness :
    load ⟨fun s => .ok (Header.default, s), fun d s => .ok (d, s),
        fun d s => .ok (d, s), fun d s => .ok (d, s), fun d s => .ok (d, s),
        fun d s => .ok (d, s)⟩ (fun _ => .ok Drawing.default) (fun _ _ => []) 1
      ["0"] = some (.ok Drawing.default) := by
  have h := (load_format_sniffer ⟨fun s => .ok (Header.default, s),
      fun d s => .ok (d, s), fun d s => .ok (d, s), fun d s => .ok (d, s),
      fun d s => .ok (d, s), fun d s => .ok (d, s)⟩
      (fun _ => .ok Drawing.default) (fun _ _ => []) 1).2.2 "0" [] (by decide)
  rw [h]
  rfl

/-- `swallow_section` discards every pair of a section body none of whose
code-0 pairs is a string `ENDSEC` (and all of whose code-0 pairs are
strings), then stops at the closing `0/ENDSEC`, pushing it back. -/
theorem swallow_section_through (content rest : List CodePair)
    (hc : ∀ p ∈ content, p.code = 0 →
      p.value.isStr = true ∧ p.value ≠ CodePairValue.Str "ENDSEC") :
    swallow_section (content ++ ⟨0, CodePairValue.Str "ENDSEC"⟩ :: rest) =
      .ok (⟨0, CodePairValue.Str "ENDSEC"⟩ :: rest) := by
  induction content with
  | nil => simp [swallow_section, assert_string]
  | cons p t ih =>
    have ht : ∀ q ∈ t, q.code = 0 →
        q.value.isStr = true ∧ q.value ≠ CodePairValue.Str "ENDSEC" :=
      fun q hq => hc q (by simp [hq])
    by_cases h0 : p.code = 0
    · obtain ⟨hstr, hne⟩ := hc p (by simp) h0
      cases hv : p.value with
      | Str s =>
        have hs : s ≠ "ENDSEC" := by
          intro hcontra
          rw [hv, hcontra] at hne
          exact hne rfl
        simp [swallow_section, h0, assert_string, hv, hs, ih ht]
      | I32 n => rw [hv] at hstr; simp [CodePairValue.isStr] at hstr
      | Boolean b => rw [hv] at hstr; simp [CodePairValue.isStr] at hstr
    · simp [swallow_section, h0, ih ht]

/-- One top-level step of `read_sections` over an empty TABLES section:
the section opens, `read_section_item` immediately sees the `ENDSEC`, the
dispatcher consumes it, and the loop continues on the rest. -/
theorem read_sections_tables_step (H : Handlers) (fuel : Nat) (d : Drawing)
    (rest : List CodePair) :
    read_sections H (fuel + 1) d
      (mkStr 0 "SECTION" :: mkStr 2 "TABLES" :: mkStr 0 "ENDSEC" :: rest) =
      read_sections H fuel d rest := by
  simp [read_sections, assert_string, mkStr, handle_section, read_section_item]

/-- One top-level step of `read_sections` over a well-formed section with an
unrecognized name: the body is swallowed wholesale, the dispatcher consumes
the closing `ENDSEC`, the drawing is untouched, and the loop continues. -/
theorem read_sections_unknown_step (H : Handlers) (fuel : Nat) (d : Drawing)
    (name : String) (content rest : List CodePair)
    (hname : name ∉ ["HEADER", "CLASSES", "TABLES", "BLOCKS", "ENTITIES",
      "OBJECTS", "THUMBNAILIMAGE"])
    (hc : ∀ p ∈ content, p.code = 0 →
      p.value.isStr = true ∧ p.value ≠ CodePairValue.Str "ENDSEC") :
    read_sections H (fuel + 1) d
      (mkStr 0 "SECTION" :: mkStr 2 name :: (content ++ mkStr 0 "ENDSEC" :: rest)) =
      read_sections H fuel d rest := by
  have h1 : name ≠ "HEADER" := fun h => hname (by simp [h])
  have h2 : name ≠ "CLASSES" := fun h => hname (by simp [h])
  have h3 : name ≠ "TABLES" := fun h => hname (by simp [h])
  have h4 : name ≠ "BLOCKS" := fun h => hname (by simp [h])
  have h5 : name ≠ "ENTITIES" := fun h => hname (by simp [h])
  have h6 : name ≠ "OBJECTS" := fun h => hname (by simp [h])
  have h7 : name ≠ "THUMBNAILIMAGE" := fun h => hname (by simp [h])
  simp [read_sections, assert_string, mkStr, handle_section,
    h1, h2, h3, h4, h5, h6, h7, swallow_section_through content rest hc]

/-- A `0/EOF` at the top level of `read_sections` is pushed back and the
loop stops successfully. -/
theorem read_sections_eof_step (H : Handlers) (fuel : Nat) (d : Drawing)
    (rest : List CodePair) :
    read_sections H (fuel + 1) d (mkStr 0 "EOF" :: rest) =
      some (.ok (d, mkStr 0 "EOF" :: rest)) := by
  simp [read_sections, assert_string, mkStr]

/-- Claim C4: a well-formed section with an unrecognized name, sitting
between two well-formed known (TABLES) sections, is skipped: whatever its
name (as long as it is unrecognized) and whatever its content (as long as no
code-0 pair is a non-string or an `ENDSEC`), the load succeeds and returns
the default drawing — no collection, header field, or thumbnail receives any
of the skipped pairs.  The handlers are universally quantified: none of them
is ever consulted for the skipped section. -/
theorem unknown_section_skipped (H : Handlers) (name : String)
    (content : List CodePair) (fuel : Nat)
    (hname : name ∉ ["HEADER", "CLASSES", "TABLES", "BLOCKS", "ENTITIES",
      "OBJECTS", "THUMBNAILIMAGE"])
    (hcontent : ∀ p ∈ content, p.code = 0 →
      p.value.isStr = true ∧ p.value ≠ CodePairValue.Str "ENDSEC") :
    load_body H (fuel + 1 + 1 + 1 + 1)
      (mkStr 0 "SECTION" :: mkStr 2 "TABLES" :: mkStr 0 "ENDSEC" ::
       mkStr 0 "SECTION" :: mkStr 2 name ::
       (content ++
        (mkStr 0 "ENDSEC" ::
         mkStr 0 "SECTION" :: mkStr 2 "TABLES" :: mkStr 0 "ENDSEC" ::
         mkStr 0 "EOF" :: []))) = some (.ok Drawing.default) := by
  simp only [load_body]
  rw [read_sections_tables_step]
  rw [read_sections_unknown_step H _ Drawing.default name content _ hname hcontent]
  rw [read_sections_tables_step]
  rw [read_sections_eof_step]
  simp [check_trailing, mkStr]

/-- Witness for C4: the unknown name "CUSTOM_SEC" with a three-pair body
(a code-10 string, a code-0 string LINE, a code-330 integer) between two
empty TABLES sections loads to the default drawing under trivial concrete
handlers. -/
theorem unknown_section_skipped_witness :
    (("CUSTOM_SEC" : String) ∉ ["HEADER", "CLASSES", "TABLES", "BLOCKS",
      "ENTITIES", "OBJECTS", "THUMBNAILIMAGE"]) ∧
    load_body ⟨fun s => .ok (Header.default, s), fun d s => .ok (d, s),
        fun d s => .ok (d, s), fun d s => .ok (d, s), fun d s => .ok (d, s),
        fun d s => .ok (d, s)⟩ 4
      [mkStr 0 "SECTION", mkStr 2 "TABLES", mkStr 0 "ENDSEC",
       mkStr 0 "SECTION", mkStr 2 "CUSTOM_SEC",
       ⟨10, .Str "x"⟩, mkStr 0 "LINE", ⟨330, .I32 7⟩,
       mkStr 0 "ENDSEC",
       mkStr 0 "SECTION", mkStr 2 "TABLES", mkStr 0 "ENDSEC",
       mkStr 0 "EOF"] = some (.ok Drawing.default) := by
  refine ⟨by decide, ?_⟩
  have h := unknown_section_skipped
    ⟨fun s => .ok (Header.default, s), fun d s => .ok (d, s),
      fun d s => .ok (d, s), fun d s => .ok (d, s), fun d s => .ok (d, s),
      fun d s => .ok (d, s)⟩ "CUSTOM_SEC"
    [⟨10, .Str "x"⟩, mkStr 0 "LINE", ⟨330, .I32 7⟩] 0 (by decide) (by decide)
  simpa using h

/-- A pair that is not a `0/SECTION` marker contributes no section name. -/
theorem sectionNames_cons_of_ne (p : CodePair) (t : List CodePair)
    (h : ¬(p.code = 0 ∧ p.value = CodePairValue.Str "SECTION")) :
    sectionNames (p :: t) = sectionNames t := by
  cases t with
  | nil => simp [sectionNames.eq_def]
  | cons q t2 =>
    rw [sectionNames.eq_def]
    simp [h]

/-- A marker-free payload contributes no section names. -/
theorem sectionNames_append_of_clean (l r : List CodePair)
    (h : NoSectionMarker l) :
    sectionNames (l ++ r) = sectionNames r := by
  induction l with
  | nil => simp
  | cons p t ih =>
    have hp := h p (by simp)
    have ht : NoSectionMarker t := fun q hq => h q (by simp [hq])
    rw [List.cons_append, sectionNames_cons_of_ne p _ hp, ih ht]

/-- A `0/SECTION` pair followed by a `2/<name>` pair announces `name`. -/
theorem sectionNames_marker (name : String) (t : List CodePair) :
    sectionNames (mkStr 0 "SECTION" :: mkStr 2 name :: t) =
      name :: sectionNames t := by
  rw [sectionNames.eq_def]
  simp [mkStr]

/-- A whole framed section with a marker-free payload announces exactly its
name. -/
theorem sectionNames_section_block (name : String) (payload t : List CodePair)
    (h : NoSectionMarker payload) :
    sectionNames (([mkStr 0 "SECTION", mkStr 2 name] ++ payload ++
        [mkStr 0 "ENDSEC"]) ++ t) = name :: sectionNames t := by
  have e : ([mkStr 0 "SECTION", mkStr 2 name] ++ payload ++ [mkStr 0 "ENDSEC"]) ++ t =
      mkStr 0 "SECTION" :: mkStr 2 name :: (payload ++ (mkStr 0 "ENDSEC" :: t)) := by
    simp
  rw [e, sectionNames_marker, sectionNames_append_of_clean _ _ h,
    sectionNames_cons_of_ne _ _ (by simp [mkStr])]

/-- Concatenating marker-free per-item payloads stays marker-free. -/
theorem noMarker_flatMap {α : Type} (f : α → List CodePair) (l : List α)
    (h : ∀ a, NoSectionMarker (f a)) : NoSectionMarker (l.flatMap f) := by
  intro p hp
  rw [List.mem_flatMap] at hp
  obtain ⟨a, _, hpa⟩ := hp
  exact h a p hpa

/-- Contribution of `write_classes` to the section names: `CLASSES` exactly
when the class collection is non-empty. -/
theorem sn_write_classes (d : Drawing) (W : Writers) (t : List CodePair)
    (hcls : ∀ v c, NoSectionMarker (W.classPairs v c)) :
    sectionNames (write_classes d W ++ t) =
      (if d.classes.length = 0 then [] else ["CLASSES"]) ++ sectionNames t := by
  by_cases h : d.classes.length = 0
  · simp [write_classes, h]
  · simp only [write_classes, if_neg h]
    rw [sectionNames_section_block _ _ _
      (noMarker_flatMap _ _ fun c => hcls d.header.version c)]
    simp [h]

/-- Contribution of `write_tables`: always `TABLES`. -/
theorem sn_write_tables (d : Drawing) (W : Writers) (wh : Bool) (t : List CodePair)
    (htbl : ∀ dd wh2, NoSectionMarker (W.tablesPairs dd wh2)) :
    sectionNames (write_tables d W wh ++ t) = "TABLES" :: sectionNames t := by
  simp only [write_tables]
  rw [sectionNames_section_block _ _ _ (htbl d wh)]

/-- Contribution of `write_blocks`: `BLOCKS` exactly when the block
collection is non-empty. -/
theorem sn_write_blocks (d : Drawing) (W : Writers) (wh : Bool) (t : List CodePair)
    (hblk : ∀ v wh2 b, NoSectionMarker (W.blockPairs v wh2 b)) :
    sectionNames (write_blocks d W wh ++ t) =
      (if d.blocks.length = 0 then [] else ["BLOCKS"]) ++ sectionNames t := by
  by_cases h : d.blocks.length = 0
  · simp [write_blocks, h]
  · simp only [write_blocks, if_neg h]
    rw [sectionNames_section_block _ _ _
      (noMarker_flatMap _ _ fun b => hblk d.header.version wh b)]
    simp [h]

/-- Contribution of `write_entities`: always `ENTITIES`. -/
theorem sn_write_entities (d : Drawing) (W : Writers) (wh : Bool) (t : List CodePair)
    (hent : ∀ v wh2 e, NoSectionMarker (W.entityPairs v wh2 e)) :
    sectionNames (write_entities d W wh ++ t) = "ENTITIES" :: sectionNames t := by
  simp only [write_entities]
  rw [sectionNames_section_block _ _ _
    (noMarker_flatMap _ _ fun e => hent d.header.version wh e)]

/-- Contribution of `write_objects`: always `OBJECTS`. -/
theorem sn_write_objects (d : Drawing) (W : Writers) (t : List CodePair)
    (hobj : ∀ v o, NoSectionMarker (W.objectPairs v o)) :
    sectionNames (write_objects d W ++ t) = "OBJECTS" :: sectionNames t := by
  simp only [write_objects]
  rw [sectionNames_section_block _ _ _
    (noMarker_flatMap _ _ fun o => hobj d.header.version o)]

/-- With a long-enough (or absent) thumbnail buffer, `write_thumbnail`
returns normally and its contribution to the section names is
`THUMBNAILIMAGE` exactly when the version is at least R2000 and a thumbnail
is present. -/
theorem write_thumbnail_clean (d : Drawing) (h : thumb_len_ok d = true) :
    ∃ thumb, write_thumbnail d = some thumb ∧
      ∀ t, sectionNames (thumb ++ t) =
        (if d.header.version.atLeast .R2000 && d.thumbnail.isSome
          then ["THUMBNAILIMAGE"] else []) ++ sectionNames t := by
  by_cases hv : d.header.version.atLeast .R2000 = true
  · cases htn : d.thumbnail with
    | none =>
      refine ⟨[], ?_, ?_⟩
      · simp [write_thumbnail, hv, htn]
      · intro t; simp [hv, htn]
    | some data =>
      have hlen : 14 ≤ data.length := by
        rw [thumb_len_ok, htn] at h
        simpa using h
      have hlt : ¬ data.length < 14 := by omega
      refine ⟨[mkStr 0 "SECTION", mkStr 2 "THUMBNAILIMAGE"] ++
        (⟨90, .I32 (i32_of_usize (data.length - 14))⟩ ::
          (chunks128 (data.drop 14)).map fun chunk => ⟨310, .Str (hex_line chunk)⟩) ++
        [mkStr 0 "ENDSEC"], ?_, ?_⟩
      · simp [write_thumbnail, hv, htn, usize_sub, slice_from, hlen]
      · intro t
        have hclean : NoSectionMarker
            (⟨90, .I32 (i32_of_usize (data.length - 14))⟩ ::
              (chunks128 (data.drop 14)).map fun chunk =>
                ⟨310, .Str (hex_line chunk)⟩) := by
          intro p hp
          simp only [List.mem_cons, List.mem_map] at hp
          rcases hp with rfl | ⟨c, _, rfl⟩ <;> simp
        rw [sectionNames_section_block _ _ _ hclean]
        simp [hv, htn]
  · have hv' : d.header.version.atLeast .R2000 = false := by
      revert hv; cases d.header.version.atLeast .R2000 <;> simp
    refine ⟨[], ?_, ?_⟩
    · simp [write_thumbnail, hv']
    · intro t; simp [hv']

/-- Claim C6: for every drawing and every family of payload writers that
emit no section framing of their own (and a thumbnail that does not panic
the writer), `save_internal` produces output that starts with the prelude
and the header payload, announces its sections in the fixed order CLASSES,
TABLES, BLOCKS, ENTITIES, OBJECTS, THUMBNAILIMAGE — with CLASSES present iff
the class collection is non-empty, BLOCKS present iff the block collection
is non-empty, and TABLES / ENTITIES / OBJECTS always present — and ends with
the terminating `0/EOF` pair. -/
theorem save_section_layout (d : Drawing) (W : Writers)
    (hpre : NoSectionMarker W.preludePairs)
    (hhdr : NoSectionMarker (W.headerPairs d.header))
    (hcls : ∀ v c, NoSectionMarker (W.classPairs v c))
    (htbl : ∀ dd wh, NoSectionMarker (W.tablesPairs dd wh))
    (hblk : ∀ v wh b, NoSectionMarker (W.blockPairs v wh b))
    (hent : ∀ v wh e, NoSectionMarker (W.entityPairs v wh e))
    (hobj : ∀ v o, NoSectionMarker (W.objectPairs v o))
    (hth : thumb_len_ok d = true) :
    ∃ out rest, save_internal d W = some out ∧
      out = W.preludePairs ++ (W.headerPairs d.header ++ rest) ∧
      sectionNames out =
        (if d.classes.length = 0 then [] else ["CLASSES"]) ++ ["TABLES"] ++
        (if d.blocks.length = 0 then [] else ["BLOCKS"]) ++
        ["ENTITIES", "OBJECTS"] ++
        (if d.header.version.atLeast .R2000 && d.thumbnail.isSome
          then ["THUMBNAILIMAGE"] else []) ∧
      out.getLast? = some (mkStr 0 "EOF") := by
  obtain ⟨thumb, hthumb, hsn⟩ := write_thumbnail_clean d hth
  have wh := d.header.version.atLeast .R13 || d.header.handles_enabled
  refine ⟨W.preludePairs ++ W.headerPairs d.header ++
      write_classes d W ++
      write_tables d W (d.header.version.atLeast .R13 || d.header.handles_enabled) ++
      write_blocks d W (d.header.version.atLeast .R13 || d.header.handles_enabled) ++
      write_entities d W (d.header.version.atLeast .R13 || d.header.handles_enabled) ++
      write_objects d W ++ thumb ++ [mkStr 0 "EOF"],
    write_classes d W ++
      (write_tables d W (d.header.version.atLeast .R13 || d.header.handles_enabled) ++
      (write_blocks d W (d.header.version.atLeast .R13 || d.header.handles_enabled) ++
      (write_entities d W (d.header.version.atLeast .R13 || d.header.handles_enabled) ++
      (write_objects d W ++ (thumb ++ [mkStr 0 "EOF"]))))), ?_, ?_, ?_, ?_⟩
  · simp [save_internal, hthumb]
  · simp [List.append_assoc]
  · rw [show W.preludePairs ++ W.headerPairs d.header ++
        write_classes d W ++
        write_tables d W (d.header.version.atLeast .R13 || d.header.handles_enabled) ++
        write_blocks d W (d.header.version.atLeast .R13 || d.header.handles_enabled) ++
        write_entities d W (d.header.version.atLeast .R13 || d.header.handles_enabled) ++
        write_objects d W ++ thumb ++ [mkStr 0 "EOF"] =
        W.preludePairs ++ (W.headerPairs d.header ++
        (write_classes d W ++
        (write_tables d W (d.header.version.atLeast .R13 || d.header.handles_enabled) ++
        (write_blocks d W (d.header.version.atLeast .R13 || d.header.handles_enabled) ++
        (write_entities d W (d.header.version.atLeast .R13 || d.header.handles_enabled) ++
        (write_objects d W ++ (thumb ++ [mkStr 0 "EOF"]))))))) from by
      simp [List.append_assoc]]
    rw [sectionNames_append_of_clean _ _ hpre,
      sectionNames_append_of_clean _ _ hhdr,
      sn_write_classes d W _ hcls,
      sn_write_tables d W _ _ htbl,
      sn_write_blocks d W _ _ hblk,
      sn_write_entities d W _ _ hent,
      sn_write_objects d W _ hobj,
      hsn [mkStr 0 "EOF"]]
    simp [sectionNames.eq_def]
  · rw [show W.preludePairs ++ W.headerPairs d.header ++
        write_classes d W ++
        write_tables d W (d.header.version.atLeast .R13 || d.header.handles_enabled) ++
        write_blocks d W (d.header.version.atLeast .R13 || d.header.handles_enabled) ++
        write_entities d W (d.header.version.atLeast .R13 || d.header.handles_enabled) ++
        write_objects d W ++ thumb ++ [mkStr 0 "EOF"] =
        (W.preludePairs ++ W.headerPairs d.header ++
        write_classes d W ++
        write_tables d W (d.header.version.atLeast .R13 || d.header.handles_enabled) ++
        write_blocks d W (d.header.version.atLeast .R13 || d.header.handles_enabled) ++
        write_entities d W (d.header.version.atLeast .R13 || d.header.handles_enabled) ++
        write_objects d W ++ thumb) ++ [mkStr 0 "EOF"] from by
      simp [List.append_assoc]]
    exact List.getLast?_concat _

/-- Witness for C6: one class, no blocks, no thumbnail, all payload writers
empty — the output announces CLASSES, TABLES, ENTITIES, OBJECTS and ends
with `0/EOF`. -/
theorem save_section_layout_witness :
    ∃ out rest,
      save_internal { Drawing.default with classes := [⟨[]⟩] }
        ⟨[], fun _ => [], fun _ _ => [], fun _ _ => [], fun _ _ _ => [],
          fun _ _ _ => [], fun _ _ => []⟩ = some out ∧
      out = [] ++ ([] ++ rest) ∧
      sectionNames out = ["CLASSES", "TABLES", "ENTITIES", "OBJECTS"] ∧
      out.getLast? = some (mkStr 0 "EOF") := by
  have h := save_section_layout { Drawing.default with classes := [⟨[]⟩] }
    ⟨[], fun _ => [], fun _ _ => [], fun _ _ => [], fun _ _ _ => [],
      fun _ _ _ => [], fun _ _ => []⟩
    (by intro p hp; simp at hp) (by intro p hp; simp at hp)
    (by intro v c p hp; simp at hp) (by intro dd wh2 p hp; simp at hp)
    (by intro v wh2 b p hp; simp at hp) (by intro v wh2 e p hp; simp at hp)
    (by intro v o p hp; simp at hp) (by decide)
  simpa using h

end Dxf
